import Mathlib

/-!
Verification development for the `NextjsDistribution` construct
(`src/nextjs-distribution.ts`): a shallow embedding of its behavior
synthesis, override resolution, origin-policy selection, and constraint
validation, together with theorems settling the specification's claims.

The embedding models the constructor as a pure trace: the ordered list of
`addBehavior(pattern, origin, options)` calls made on the distribution
provider, the named response-headers policies constructed as side effects,
and the error (if any) at which synthesis stopped.
-/

namespace NextjsDistribution

/-- Modelled from the spec: the compute-topology enum `NextjsType` lives in
`./common`, which is not part of the provided source; the spec's §3
`ComputeTopology` lists the variants `EdgeFunction` (the source's
`GLOBAL_FUNCTIONS`), `ServerFunction`, and `Container`. The source only ever
compares `nextjsType === NextjsType.GLOBAL_FUNCTIONS`. -/
inductive NextjsType where
  | edgeFunction
  | serverFunction
  | container
deriving DecidableEq, Repr

/-- `this.isFunctionCompute = props.nextjsType === NextjsType.GLOBAL_FUNCTIONS`. -/
def isFunctionCompute (t : NextjsType) : Bool :=
  t = NextjsType.edgeFunction

/-- The two members of `OriginProtocolPolicy` the source selects between. -/
inductive OriginProtocolPolicy where
  | httpsOnly
  | httpOnly
deriving DecidableEq, Repr

/-- The two managed origin-request policies the source selects between. -/
inductive OriginRequestPolicyChoice where
  | allViewer
  | allViewerExceptHostHeader
deriving DecidableEq, Repr

/-- `createDynamicOrigin`, restricted to the `protocolPolicy` of the
`HttpOrigin` it returns (the domain name comes from the external
`Fn.parseDomainName` collaborator and is not modelled). The override
parameter is the `protocolPolicy` field of
`overrides?.dynamicHttpOriginProps`, which is spread after the computed
`protocolPolicy` and therefore wins when present. -/
def createDynamicOrigin (fc : Bool) (hasCertificate : Bool)
    (overrideProtocolPolicy : Option OriginProtocolPolicy) : OriginProtocolPolicy :=
  let protocolPolicy :=
    if fc then
      OriginProtocolPolicy.httpsOnly
    else if hasCertificate then
      OriginProtocolPolicy.httpsOnly
    else
      OriginProtocolPolicy.httpOnly
  overrideProtocolPolicy.getD protocolPolicy

/-- `createDynamicOriginRequestPolicy`. -/
def createDynamicOriginRequestPolicy (fc : Bool) : OriginRequestPolicyChoice :=
  if fc then
    OriginRequestPolicyChoice.allViewerExceptHostHeader
  else
    OriginRequestPolicyChoice.allViewer

/-- `HeadersFrameOption` members used by the source. -/
inductive HeadersFrameOption where
  | deny
  | sameorigin
deriving DecidableEq, Repr

/-- `HeadersReferrerPolicy` members used by the source. -/
inductive HeadersReferrerPolicy where
  | strictOriginWhenCrossOrigin
deriving DecidableEq, Repr

/-- `ResponseSecurityHeadersBehavior`, flattened to the fields the source
sets in `commonSecurityHeadersBehavior`. -/
structure ResponseSecurityHeadersBehavior where
  contentTypeOptionsOverride : Bool
  frameOption : HeadersFrameOption
  frameOptionsOverride : Bool
  referrerPolicyOverride : Bool
  referrerPolicy : HeadersReferrerPolicy
  stsAccessControlMaxAgeDays : Nat
  stsIncludeSubdomains : Bool
  stsOverride : Bool
  stsPreload : Bool
  xssProtectionOverride : Bool
  xssProtection : Bool
  xssModeBlock : Bool
deriving DecidableEq, Repr

/-- `this.commonSecurityHeadersBehavior` (source lines 103–121). -/
def commonSecurityHeadersBehavior : ResponseSecurityHeadersBehavior where
  contentTypeOptionsOverride := false
  frameOption := HeadersFrameOption.sameorigin
  frameOptionsOverride := false
  referrerPolicyOverride := false
  referrerPolicy := HeadersReferrerPolicy.strictOriginWhenCrossOrigin
  stsAccessControlMaxAgeDays := 365
  stsIncludeSubdomains := true
  stsOverride := false
  stsPreload := true
  xssProtectionOverride := false
  xssProtection := true
  xssModeBlock := true

/-- `ResponseHeadersPolicyProps`, restricted to the fields the source passes
(`securityHeadersBehavior`, `comment`); `none` models a property that is
absent from the object literal. -/
structure ResponseHeadersPolicyProps where
  securityHeadersBehavior : Option ResponseSecurityHeadersBehavior := none
  comment : Option String := none
deriving DecidableEq, Repr

/-- JavaScript object-spread shallow merge on
`ResponseHeadersPolicyProps`: a field present on the spread (second)
object overwrites the base field. -/
def spreadProps (base override : ResponseHeadersPolicyProps) : ResponseHeadersPolicyProps where
  securityHeadersBehavior :=
    match override.securityHeadersBehavior with
    | some v => some v
    | none => base.securityHeadersBehavior
  comment :=
    match override.comment with
    | some v => some v
    | none => base.comment

/-- A `ResponseHeadersPolicy` value as seen by a behavior: either a
user-supplied policy object (opaque, identified by a tag) or a policy
constructed by this construct under a construct id with given props. -/
inductive ResponseHeadersPolicyRef where
  | user (tag : Nat)
  | constructed (id : String) (props : ResponseHeadersPolicyProps)
deriving DecidableEq, Repr

/-- The `responseHeadersPolicy` resolution inside
`createStaticBehaviorOptions` (source lines 282–289):
`staticBehaviorOptions?.responseHeadersPolicy ?? new ResponseHeadersPolicy(this,
"StaticResponseHeadersPolicy", { securityHeadersBehavior, comment,
...overrides?.staticResponseHeadersPolicyProps })`. Returns the resolved
policy together with the list of policy construct ids actually constructed
(`??` short-circuits, so nothing is constructed when the override is
present). -/
def createStaticResponseHeadersPolicy
    (behaviorOverride : Option ResponseHeadersPolicyRef)
    (propsOverride : ResponseHeadersPolicyProps)
    (stackName : String) : ResponseHeadersPolicyRef × List String :=
  match behaviorOverride with
  | some p => (p, [])
  | none =>
    (ResponseHeadersPolicyRef.constructed "StaticResponseHeadersPolicy"
      (spreadProps
        { securityHeadersBehavior := some commonSecurityHeadersBehavior
          comment := some ("Nextjs Static Response Headers Policy for " ++ stackName) }
        propsOverride),
     ["StaticResponseHeadersPolicy"])

/-- The `responseHeadersPolicy` resolution inside
`createDynamicBehaviorOptions` (source lines 321–327). NOTE: the source
spreads `...overrides?.dynamicBehaviorOptions?.responseHeadersPolicy` into
the default's props — but this branch is only reached when that very value
is nullish (`??`), so the spread contributes nothing; the declared override
field `overrides.dynamicResponseHeadersPolicyProps` is never read anywhere
in the source, hence the `propsOverride` parameter is unused here. -/
def createDynamicResponseHeadersPolicy
    (behaviorOverride : Option ResponseHeadersPolicyRef)
    (propsOverride : ResponseHeadersPolicyProps)
    (stackName : String) : ResponseHeadersPolicyRef × List String :=
  match behaviorOverride with
  | some p => (p, [])
  | none =>
    (ResponseHeadersPolicyRef.constructed "DynamicResponseHeadersPolicy"
      { securityHeadersBehavior := some commonSecurityHeadersBehavior
        comment := some ("Nextjs Dynamic Response Headers Policy for " ++ stackName) },
     ["DynamicResponseHeadersPolicy"])

/-- The `responseHeadersPolicy` resolution inside
`createImageBehaviorOptions` (source lines 360–366):
`imageBehaviorOptions?.responseHeadersPolicy ?? new ResponseHeadersPolicy(this,
"ImageResponseHeadersPolicy", { securityHeadersBehavior, comment,
...overrides?.imageResponseHeadersPolicyProps })`. -/
def createImageResponseHeadersPolicy
    (behaviorOverride : Option ResponseHeadersPolicyRef)
    (propsOverride : ResponseHeadersPolicyProps)
    (stackName : String) : ResponseHeadersPolicyRef × List String :=
  match behaviorOverride with
  | some p => (p, [])
  | none =>
    (ResponseHeadersPolicyRef.constructed "ImageResponseHeadersPolicy"
      (spreadProps
        { securityHeadersBehavior := some commonSecurityHeadersBehavior
          comment := some ("Nextjs Image Response Headers Policy for " ++ stackName) }
        propsOverride),
     ["ImageResponseHeadersPolicy"])

/-- `PublicDirEntry` (from `./nextjs-build/nextjs-build`): one top-level
child of the Next.js `public/` directory. -/
structure PublicDirEntry where
  name : String
  isDirectory : Bool
deriving DecidableEq, Repr

/-- One character of the path-pattern character class
`[a-zA-Z0-9_\-.*$/~"'@:+?&]` of the regex in `addStaticBehaviors`
(source line 439). `Char.ofNat 34` is the double quote and
`Char.ofNat 39` the apostrophe. -/
def isAllowedPatternChar (c : Char) : Bool :=
  c.isAlphanum ||
    [Char.ofNat 95, Char.ofNat 45, Char.ofNat 46, Char.ofNat 42, Char.ofNat 36,
     Char.ofNat 47, Char.ofNat 126, Char.ofNat 34, Char.ofNat 39, Char.ofNat 64,
     Char.ofNat 58, Char.ofNat 43, Char.ofNat 63, Char.ofNat 38].contains c

/-- `^[a-zA-Z0-9_\-.*$/~"'@:+?&]+$`: one or more allowed characters,
anchored at both ends. -/
def matchesPathPatternGrammar (p : String) : Bool :=
  !p.data.isEmpty && p.data.all isAllowedPatternChar

/-- The per-entry pattern of `addStaticBehaviors` (source lines 436–438):
`publicFile.isDirectory ? name + "/*" : name`. -/
def publicFilePathPattern (e : PublicDirEntry) : String :=
  if e.isDirectory then e.name ++ "/*" else e.name

/-- `getPathPattern` (source lines 455–461): prepends the base path when it
is truthy (JavaScript: an absent or empty-string `basePath` is falsy). -/
def getPathPattern (basePath : Option String) (pathPattern : String) : String :=
  match basePath with
  | some bp => if bp.isEmpty then pathPattern else bp ++ "/" ++ pathPattern
  | none => pathPattern

/-- The three `throw new Error(...)` sites of the source. -/
inductive NextjsDistributionError where
  | configurationLimitExceeded
  | invalidPathPattern (pathPattern : String)
  | missingFunctionArn
deriving DecidableEq, Repr

/-- The message strings of the source's `throw new Error(...)` calls. -/
def errorMessage : NextjsDistributionError → String
  | NextjsDistributionError.configurationLimitExceeded =>
    "Too many public/ files in Next.js build. CloudFront limits Distributions to 25 Cache Behaviors. See documented limit here: https://docs.aws.amazon.com/AmazonCloudFront/latest/DeveloperGuide/cloudfront-limits.html#limits-web-distributions. Try including all public files into 1 top level directory (i.e. static/*)."
  | NextjsDistributionError.invalidPathPattern p =>
    "Invalid CloudFront Distribution Cache Behavior Path Pattern: " ++ p ++
      ". Please see documentation here: https://docs.aws.amazon.com/AmazonCloudFront/latest/DeveloperGuide/distribution-web-values-specify.html#DownloadDistValuesPathPattern"
  | NextjsDistributionError.missingFunctionArn => "functionArn is required"

/-- The `for (const publicFile of publicDirEntries)` loop of
`addStaticBehaviors` (source lines 435–450): `acc` is the list of path
patterns already passed to `distribution.addBehavior`, in call order. The
loop stops at the first entry whose (un-prefixed) pattern fails the grammar
regex; entries that pass are added with the base path prepended. -/
def addStaticBehaviorsLoop (basePath : Option String) :
    List PublicDirEntry → List String → List String × Option NextjsDistributionError
  | [], acc => (acc, none)
  | e :: rest, acc =>
    let pathPattern := publicFilePathPattern e
    if matchesPathPatternGrammar pathPattern then
      addStaticBehaviorsLoop basePath rest (acc ++ [getPathPattern basePath pathPattern])
    else
      (acc, some (NextjsDistributionError.invalidPathPattern pathPattern))

/-- `addStaticBehaviors` (source lines 423–451): first adds the
`_next/static*` behavior (with no base-path prefix), then checks the
route-count ceiling (`publicDirEntries.length >= 22`), then runs the
per-entry loop. Returns the patterns passed to `addBehavior` (in order,
including those added before any error) and the error at which it stopped,
if any. -/
def addStaticBehaviors (basePath : Option String) (publicDirEntries : List PublicDirEntry) :
    List String × Option NextjsDistributionError :=
  let applied := ["_next/static*"]
  if 22 ≤ publicDirEntries.length then
    (applied, some NextjsDistributionError.configurationLimitExceeded)
  else
    addStaticBehaviorsLoop basePath publicDirEntries applied

/-- `addDynamicBehaviors` (source lines 398–422): adds the image behavior at
`getPathPattern("_next/image*")`; when the base path is truthy, also adds an
exact-match behavior at the base path itself and the emulated default
behavior at `getPathPattern("*")`. Returns the patterns passed to
`addBehavior`, in order. -/
def addDynamicBehaviors (basePath : Option String) : List String :=
  [getPathPattern basePath "_next/image*"] ++
    (match basePath with
     | some bp =>
       if bp.isEmpty then [] else [bp, getPathPattern basePath "*"]
     | none => [])

/-- `NextjsDistributionOverrides`, restricted to the fields that reach the
logic modelled here. `staticBehaviorOptionsResponseHeadersPolicy` stands for
`staticBehaviorOptions?.responseHeadersPolicy` (similarly for dynamic and
image), and `dynamicHttpOriginProtocolPolicy` for
`dynamicHttpOriginProps?.protocolPolicy`. -/
structure NextjsDistributionOverrides where
  imageBehaviorOptionsResponseHeadersPolicy : Option ResponseHeadersPolicyRef := none
  imageResponseHeadersPolicyProps : ResponseHeadersPolicyProps := {}
  dynamicBehaviorOptionsResponseHeadersPolicy : Option ResponseHeadersPolicyRef := none
  dynamicResponseHeadersPolicyProps : ResponseHeadersPolicyProps := {}
  dynamicHttpOriginProtocolPolicy : Option OriginProtocolPolicy := none
  staticBehaviorOptionsResponseHeadersPolicy : Option ResponseHeadersPolicyRef := none
  staticResponseHeadersPolicyProps : ResponseHeadersPolicyProps := {}
deriving DecidableEq, Repr

/-- `NextjsDistributionProps`, restricted to the inputs that reach the logic
modelled here (`assetsBucket` and `distribution` feed only the external
providers; `certificate` is modelled by its presence). -/
structure NextjsDistributionProps where
  basePath : Option String := none
  certificate : Bool := false
  dynamicUrl : String := ""
  functionArn : Option String := none
  nextjsType : NextjsType
  overrides : NextjsDistributionOverrides := {}
  publicDirEntries : List PublicDirEntry := []
deriving DecidableEq, Repr

/-- JavaScript truthiness of `this.props.functionArn` as used by
`createEdgeLambdas`: absent or empty string is falsy. -/
def functionArnTruthy : Option String → Bool
  | some a => !a.isEmpty
  | none => false

/-- The observable outcome of running the `NextjsDistribution` constructor:
the dynamic-origin policies, the resolved response-headers policies (absent
when synthesis failed before reaching them), the construct ids of the
response-headers policies constructed as side effects, the ordered list of
path patterns passed to `distribution.addBehavior`, and the error at which
the constructor threw, if any. -/
structure DistributionSynthesis where
  dynamicOriginProtocolPolicy : OriginProtocolPolicy
  dynamicOriginRequestPolicy : OriginRequestPolicyChoice
  staticResponseHeadersPolicy : Option ResponseHeadersPolicyRef
  dynamicResponseHeadersPolicy : Option ResponseHeadersPolicyRef
  imageResponseHeadersPolicy : Option ResponseHeadersPolicyRef
  constructedPolicies : List String
  appliedBehaviors : List String
  error : Option NextjsDistributionError
deriving DecidableEq, Repr

/-- The constructor (source lines 132–156), step for step: origins and
origin-request policy first; then `createEdgeLambdas` when
`isFunctionCompute`, which throws `"functionArn is required"` when
`functionArn` is falsy — before any behavior options are built; then the
three behavior-option builders (each resolving its response-headers
policy); then `addStaticBehaviors` followed by `addDynamicBehaviors`, the
latter reached only when the former did not throw. `stackName` stands for
the external `Stack.of(this).stackName`. -/
def nextjsDistributionConstruct (props : NextjsDistributionProps) (stackName : String) :
    DistributionSynthesis :=
  let fc := isFunctionCompute props.nextjsType
  let proto := createDynamicOrigin fc props.certificate
    props.overrides.dynamicHttpOriginProtocolPolicy
  let orp := createDynamicOriginRequestPolicy fc
  if fc && !functionArnTruthy props.functionArn then
    { dynamicOriginProtocolPolicy := proto
      dynamicOriginRequestPolicy := orp
      staticResponseHeadersPolicy := none
      dynamicResponseHeadersPolicy := none
      imageResponseHeadersPolicy := none
      constructedPolicies := []
      appliedBehaviors := []
      error := some NextjsDistributionError.missingFunctionArn }
  else
    let (srhp, c1) := createStaticResponseHeadersPolicy
      props.overrides.staticBehaviorOptionsResponseHeadersPolicy
      props.overrides.staticResponseHeadersPolicyProps stackName
    let (drhp, c2) := createDynamicResponseHeadersPolicy
      props.overrides.dynamicBehaviorOptionsResponseHeadersPolicy
      props.overrides.dynamicResponseHeadersPolicyProps stackName
    let (irhp, c3) := createImageResponseHeadersPolicy
      props.overrides.imageBehaviorOptionsResponseHeadersPolicy
      props.overrides.imageResponseHeadersPolicyProps stackName
    let (staticApplied, err) := addStaticBehaviors props.basePath props.publicDirEntries
    { dynamicOriginProtocolPolicy := proto
      dynamicOriginRequestPolicy := orp
      staticResponseHeadersPolicy := some srhp
      dynamicResponseHeadersPolicy := some drhp
      imageResponseHeadersPolicy := some irhp
      constructedPolicies := c1 ++ c2 ++ c3
      appliedBehaviors :=
        staticApplied ++
          (match err with
           | some _ => []
           | none => addDynamicBehaviors props.basePath)
      error := err }

/-! ## Helper lemmas about the static-behavior loop and the pattern grammar -/

/-- When every entry's derived pattern passes the grammar, the loop adds one
behavior per entry, in input order, each with the base path prepended. -/
theorem addStaticBehaviorsLoop_success (basePath : Option String)
    (entries : List PublicDirEntry) :
    ∀ acc : List String,
      (∀ e ∈ entries, matchesPathPatternGrammar (publicFilePathPattern e) = true) →
      addStaticBehaviorsLoop basePath entries acc =
        (acc ++ entries.map (fun e => getPathPattern basePath (publicFilePathPattern e)),
         none) := by
  induction entries with
  | nil => intro acc _; simp [addStaticBehaviorsLoop]
  | cons e rest ih =>
    intro acc h
    have he : matchesPathPatternGrammar (publicFilePathPattern e) = true :=
      h e (List.mem_cons_self e rest)
    have hrest := ih (acc ++ [getPathPattern basePath (publicFilePathPattern e)])
      (fun x hx => h x (List.mem_cons_of_mem e hx))
    simp only [addStaticBehaviorsLoop, he, if_true, hrest, List.map_cons]
    simp [List.append_assoc]

/-- Whatever happens, the loop's applied list is the accumulator followed by
the prefixed patterns of some initial segment of the entries. -/
theorem addStaticBehaviorsLoop_applied_take (basePath : Option String)
    (entries : List PublicDirEntry) :
    ∀ acc : List String, ∃ k,
      (addStaticBehaviorsLoop basePath entries acc).1 =
        acc ++ (entries.take k).map
          (fun e => getPathPattern basePath (publicFilePathPattern e)) := by
  induction entries with
  | nil => intro acc; exact ⟨0, by simp [addStaticBehaviorsLoop]⟩
  | cons e rest ih =>
    intro acc
    by_cases he : matchesPathPatternGrammar (publicFilePathPattern e) = true
    · obtain ⟨k, hk⟩ := ih (acc ++ [getPathPattern basePath (publicFilePathPattern e)])
      refine ⟨k + 1, ?_⟩
      simp only [addStaticBehaviorsLoop, he, if_true, hk, List.take_succ_cons, List.map_cons]
      simp [List.append_assoc]
    · refine ⟨0, ?_⟩
      simp only [Bool.not_eq_true] at he
      simp [addStaticBehaviorsLoop, he]

/-- If some entry's derived pattern fails the grammar, the loop stops at the
first such entry and reports exactly its pattern. -/
theorem addStaticBehaviorsLoop_first_invalid (basePath : Option String)
    (entries : List PublicDirEntry) :
    ∀ acc : List String,
      (∃ e ∈ entries, matchesPathPatternGrammar (publicFilePathPattern e) = false) →
      ∃ pre bad post,
        entries = pre ++ bad :: post ∧
        (∀ x ∈ pre, matchesPathPatternGrammar (publicFilePathPattern x) = true) ∧
        matchesPathPatternGrammar (publicFilePathPattern bad) = false ∧
        (addStaticBehaviorsLoop basePath entries acc).2 =
          some (NextjsDistributionError.invalidPathPattern (publicFilePathPattern bad)) := by
  induction entries with
  | nil => intro acc h; simp at h
  | cons e rest ih =>
    intro acc h
    by_cases he : matchesPathPatternGrammar (publicFilePathPattern e) = true
    · have hr : ∃ x ∈ rest, matchesPathPatternGrammar (publicFilePathPattern x) = false := by
        obtain ⟨x, hx, hxf⟩ := h
        rcases List.mem_cons.mp hx with hxe | hx'
        · rw [hxe, he] at hxf; cases hxf
        · exact ⟨x, hx', hxf⟩
      obtain ⟨pre, bad, post, h1, h2, h3, h4⟩ :=
        ih (acc ++ [getPathPattern basePath (publicFilePathPattern e)]) hr
      refine ⟨e :: pre, bad, post, by rw [h1]; rfl, ?_, h3, ?_⟩
      · intro x hx
        rcases List.mem_cons.mp hx with hxe | hx'
        · rw [hxe]; exact he
        · exact h2 x hx'
      · simp only [addStaticBehaviorsLoop, he, if_true, h4]
    · simp only [Bool.not_eq_true] at he
      exact ⟨[], e, rest, rfl, by simp, he, by simp [addStaticBehaviorsLoop, he]⟩

/-- The loop itself never reports the route-count error. -/
theorem addStaticBehaviorsLoop_ne_limit (basePath : Option String)
    (entries : List PublicDirEntry) :
    ∀ acc : List String,
      (addStaticBehaviorsLoop basePath entries acc).2 ≠
        some NextjsDistributionError.configurationLimitExceeded := by
  induction entries with
  | nil => intro acc; simp [addStaticBehaviorsLoop]
  | cons e rest ih =>
    intro acc
    by_cases he : matchesPathPatternGrammar (publicFilePathPattern e) = true
    · simp only [addStaticBehaviorsLoop, he, if_true]
      exact ih _
    · simp only [Bool.not_eq_true] at he
      simp [addStaticBehaviorsLoop, he]

/-- Concatenation of two grammar-conforming strings conforms to the grammar. -/
theorem matchesPathPatternGrammar_append (a b : String)
    (ha : matchesPathPatternGrammar a = true)
    (hb : matchesPathPatternGrammar b = true) :
    matchesPathPatternGrammar (a ++ b) = true := by
  unfold matchesPathPatternGrammar at *
  rw [String.data_append]
  simp only [Bool.and_eq_true, Bool.not_eq_true', List.all_eq_true] at *
  refine ⟨?_, ?_⟩
  · cases hd : a.data with
    | nil => rw [hd] at ha; simp [List.isEmpty] at ha
    | cons c l => simp [List.isEmpty]
  · intro x hx
    rcases List.mem_append.mp hx with h | h
    · exact ha.2 x h
    · exact hb.2 x h

/-- Prepending a grammar-conforming base path preserves the grammar. -/
theorem matchesPathPatternGrammar_getPathPattern (basePath : Option String) (p : String)
    (hbp : ∀ b ∈ basePath, matchesPathPatternGrammar b = true)
    (hp : matchesPathPatternGrammar p = true) :
    matchesPathPatternGrammar (getPathPattern basePath p) = true := by
  cases basePath with
  | none => simpa [getPathPattern] using hp
  | some bp =>
    by_cases hempty : bp.isEmpty
    · simpa [getPathPattern, hempty] using hp
    · simp only [getPathPattern, hempty, if_false, Bool.false_eq_true]
      have hb : matchesPathPatternGrammar bp = true := hbp bp rfl
      exact matchesPathPatternGrammar_append _ _
        (matchesPathPatternGrammar_append _ _ hb (by decide)) hp

/-! ## Claim theorems -/

/-- C3: for every public-directory entry list, `addStaticBehaviors` raises
the route-count (`ConfigurationLimitExceeded`) error exactly when the list
has 22 or more entries, and that error's message names the configured
platform limit of 25 behaviors. -/
theorem c3_count_invariant (basePath : Option String) (entries : List PublicDirEntry) :
    ((addStaticBehaviors basePath entries).2 =
        some NextjsDistributionError.configurationLimitExceeded ↔
      22 ≤ entries.length) ∧
    ∃ pre post,
      errorMessage NextjsDistributionError.configurationLimitExceeded =
        pre ++ "25" ++ post := by
  refine ⟨?_, ?_⟩
  · by_cases h : 22 ≤ entries.length
    · simp [addStaticBehaviors, h]
    · simp only [addStaticBehaviors, h, if_false, iff_false]
      exact addStaticBehaviorsLoop_ne_limit _ _ _
  · exact ⟨"Too many public/ files in Next.js build. CloudFront limits Distributions to ",
      " Cache Behaviors. See documented limit here: https://docs.aws.amazon.com/AmazonCloudFront/latest/DeveloperGuide/cloudfront-limits.html#limits-web-distributions. Try including all public files into 1 top level directory (i.e. static/*).",
      rfl⟩

/-- Witness for C3: 22 entries trigger the route-count error. -/
theorem c3_count_invariant_witness :
    (addStaticBehaviors none (List.replicate 22 ⟨"a", false⟩)).2 =
      some NextjsDistributionError.configurationLimitExceeded :=
  (c3_count_invariant none (List.replicate 22 ⟨"a", false⟩)).1.mpr (by decide)

/-- C10: whenever the entry list has length 22 or more, the route-count
check (which runs once, before the per-entry loop) reports
`ConfigurationLimitExceeded`; the invalid-pattern error is never reported,
even if the list contains an entry with an invalid pattern. -/
theorem c10_count_check_precedes_grammar_check (basePath : Option String)
    (entries : List PublicDirEntry) (h : 22 ≤ entries.length) :
    (addStaticBehaviors basePath entries).2 =
      some NextjsDistributionError.configurationLimitExceeded ∧
    ∀ p, (addStaticBehaviors basePath entries).2 ≠
      some (NextjsDistributionError.invalidPathPattern p) := by
  simp [addStaticBehaviors, h]

/-- Witness for C10: 22 entries whose last derived pattern is invalid still
yield the route-count error, not the invalid-pattern error. -/
theorem c10_count_check_precedes_grammar_check_witness :
    matchesPathPatternGrammar "bad name!" = false ∧
    (addStaticBehaviors none
        (List.replicate 21 ⟨"a", false⟩ ++ [⟨"bad name!", false⟩])).2 =
      some NextjsDistributionError.configurationLimitExceeded :=
  ⟨by decide,
   (c10_count_check_precedes_grammar_check none
     (List.replicate 21 ⟨"a", false⟩ ++ [⟨"bad name!", false⟩]) (by decide)).1⟩

/-- C6: the dynamic origin's protocol policy (absent a
`dynamicHttpOriginProps` override) is HTTPS-only whenever the topology is
`EdgeFunction` regardless of certificate, HTTPS-only when a certificate is
configured for a non-function topology, and HTTP-only otherwise; and the
dynamic origin-request policy excludes the Host header exactly when the
topology is `EdgeFunction`. -/
theorem c6_topology_driven_origin_policy (t : NextjsType) (hasCertificate : Bool) :
    (t = NextjsType.edgeFunction →
      createDynamicOrigin (isFunctionCompute t) hasCertificate none =
        OriginProtocolPolicy.httpsOnly) ∧
    (t ≠ NextjsType.edgeFunction → hasCertificate = true →
      createDynamicOrigin (isFunctionCompute t) hasCertificate none =
        OriginProtocolPolicy.httpsOnly) ∧
    (t ≠ NextjsType.edgeFunction → hasCertificate = false →
      createDynamicOrigin (isFunctionCompute t) hasCertificate none =
        OriginProtocolPolicy.httpOnly) ∧
    (createDynamicOriginRequestPolicy (isFunctionCompute t) =
        OriginRequestPolicyChoice.allViewerExceptHostHeader ↔
      t = NextjsType.edgeFunction) := by
  cases t <;> cases hasCertificate <;> decide

/-- Witness for C6: an edge-function topology without certificate still gets
HTTPS-only and loses the Host header; a container without certificate gets
HTTP-only and keeps it. -/
theorem c6_topology_driven_origin_policy_witness :
    createDynamicOrigin (isFunctionCompute NextjsType.edgeFunction) false none =
      OriginProtocolPolicy.httpsOnly ∧
    createDynamicOrigin (isFunctionCompute NextjsType.container) false none =
      OriginProtocolPolicy.httpOnly ∧
    createDynamicOriginRequestPolicy (isFunctionCompute NextjsType.edgeFunction) =
      OriginRequestPolicyChoice.allViewerExceptHostHeader :=
  ⟨(c6_topology_driven_origin_policy NextjsType.edgeFunction false).1 rfl,
   (c6_topology_driven_origin_policy NextjsType.container false).2.2.1 (by decide) rfl,
   (c6_topology_driven_origin_policy NextjsType.edgeFunction false).2.2.2.mpr rfl⟩

/-- C7: a full replacement response-headers policy supplied via
`staticBehaviorOptions` is used verbatim and the default
`StaticResponseHeadersPolicy` is never constructed (regardless of any
`staticResponseHeadersPolicyProps` also supplied); supplying only a
`comment` in `staticResponseHeadersPolicyProps` yields the default policy
with only the comment changed (security headers stay at the shared
default). -/
theorem c7_static_override_precedence (p : ResponseHeadersPolicyRef)
    (rp : ResponseHeadersPolicyProps) (c stackName : String) :
    createStaticResponseHeadersPolicy (some p) rp stackName = (p, []) ∧
    createStaticResponseHeadersPolicy none { comment := some c } stackName =
      (ResponseHeadersPolicyRef.constructed "StaticResponseHeadersPolicy"
        { securityHeadersBehavior := some commonSecurityHeadersBehavior
          comment := some c },
       ["StaticResponseHeadersPolicy"]) :=
  ⟨rfl, rfl⟩

/-- C5 is false of the code: `createDynamicBehaviorOptions` spreads the
(nullish, hence no-op) `dynamicBehaviorOptions?.responseHeadersPolicy` into
the default's props instead of
`overrides.dynamicResponseHeadersPolicyProps`, so the partial-properties
override is ignored: a supplied custom comment does not appear in the
resolved policy, and the resolution does not depend on the props override
at all. -/
theorem c5_dynamic_props_override_ignored :
    (createDynamicResponseHeadersPolicy none { comment := some "custom comment" }
        "MyStack").1 =
      ResponseHeadersPolicyRef.constructed "DynamicResponseHeadersPolicy"
        { securityHeadersBehavior := some commonSecurityHeadersBehavior
          comment := some "Nextjs Dynamic Response Headers Policy for MyStack" } ∧
    ∀ (rp rq : ResponseHeadersPolicyProps) (s : String),
      createDynamicResponseHeadersPolicy none rp s =
        createDynamicResponseHeadersPolicy none rq s :=
  ⟨rfl, fun _ _ _ => rfl⟩

/-- C9: with the `EdgeFunction` topology (`GLOBAL_FUNCTIONS`) and no
`functionArn`, the constructor throws `"functionArn is required"` before
any behavior options are resolved, any response-headers policy is
constructed, or any behavior is applied to the distribution. -/
theorem c9_missing_function_arn (props : NextjsDistributionProps) (stackName : String)
    (ht : props.nextjsType = NextjsType.edgeFunction)
    (ha : props.functionArn = none) :
    (nextjsDistributionConstruct props stackName).error =
      some NextjsDistributionError.missingFunctionArn ∧
    (nextjsDistributionConstruct props stackName).appliedBehaviors = [] ∧
    (nextjsDistributionConstruct props stackName).staticResponseHeadersPolicy = none ∧
    (nextjsDistributionConstruct props stackName).dynamicResponseHeadersPolicy = none ∧
    (nextjsDistributionConstruct props stackName).imageResponseHeadersPolicy = none ∧
    (nextjsDistributionConstruct props stackName).constructedPolicies = [] ∧
    errorMessage NextjsDistributionError.missingFunctionArn = "functionArn is required" := by
  simp [nextjsDistributionConstruct, isFunctionCompute, ht, ha, functionArnTruthy,
    errorMessage]

/-- Witness for C9 at a concrete edge-function input with no functionArn. -/
theorem c9_missing_function_arn_witness :
    (nextjsDistributionConstruct { nextjsType := NextjsType.edgeFunction } "S").error =
      some NextjsDistributionError.missingFunctionArn ∧
    (nextjsDistributionConstruct { nextjsType := NextjsType.edgeFunction } "S").appliedBehaviors = [] ∧
    (nextjsDistributionConstruct { nextjsType := NextjsType.edgeFunction } "S").staticResponseHeadersPolicy = none ∧
    (nextjsDistributionConstruct { nextjsType := NextjsType.edgeFunction } "S").dynamicResponseHeadersPolicy = none ∧
    (nextjsDistributionConstruct { nextjsType := NextjsType.edgeFunction } "S").imageResponseHeadersPolicy = none ∧
    (nextjsDistributionConstruct { nextjsType := NextjsType.edgeFunction } "S").constructedPolicies = [] ∧
    errorMessage NextjsDistributionError.missingFunctionArn = "functionArn is required" :=
  c9_missing_function_arn { nextjsType := NextjsType.edgeFunction } "S" rfl rfl

/-- C1 is false of the code: for `publicEntries
[{name:"a",isDirectory:false}, {name:"b",isDirectory:true}]` and no base
path, the constructor emits `["_next/static*", "a", "b/*", "_next/image*"]`
— the image behavior comes last, not first, because `addStaticBehaviors`
(line 148) runs before `addDynamicBehaviors` (line 149). -/
theorem c1_order_counterexample :
    (nextjsDistributionConstruct
        { nextjsType := NextjsType.container
          publicDirEntries := [⟨"a", false⟩, ⟨"b", true⟩] } "S").appliedBehaviors =
      ["_next/static*", "a", "b/*", "_next/image*"] ∧
    (nextjsDistributionConstruct
        { nextjsType := NextjsType.container
          publicDirEntries := [⟨"a", false⟩, ⟨"b", true⟩] } "S").appliedBehaviors ≠
      ["_next/image*", "_next/static*", "a", "b/*"] := by
  decide

/-- C1 (amended): for every input on which synthesis does not throw, the
emitted behavior sequence is the static `_next/static*` behavior first,
then one static behavior per public-directory entry in input order, then
the image behavior, then the base-path-derived dynamic rules (if any). -/
theorem c1_order_of_emission (props : NextjsDistributionProps) (stackName : String)
    (harn : (isFunctionCompute props.nextjsType &&
      !functionArnTruthy props.functionArn) = false)
    (hlen : props.publicDirEntries.length < 22)
    (hvalid : ∀ e ∈ props.publicDirEntries,
      matchesPathPatternGrammar (publicFilePathPattern e) = true) :
    (nextjsDistributionConstruct props stackName).appliedBehaviors =
      ["_next/static*"] ++
        props.publicDirEntries.map
          (fun e => getPathPattern props.basePath (publicFilePathPattern e)) ++
        addDynamicBehaviors props.basePath := by
  have hstatic : addStaticBehaviors props.basePath props.publicDirEntries =
      (["_next/static*"] ++
        props.publicDirEntries.map
          (fun e => getPathPattern props.basePath (publicFilePathPattern e)),
       none) := by
    unfold addStaticBehaviors
    rw [if_neg (by omega)]
    exact addStaticBehaviorsLoop_success _ _ _ hvalid
  simp [nextjsDistributionConstruct, harn, hstatic]

/-- Witness for C1 (amended) at the spec's own example input. -/
theorem c1_order_of_emission_witness :
    (nextjsDistributionConstruct
        { nextjsType := NextjsType.serverFunction
          publicDirEntries := [⟨"a", false⟩, ⟨"b", true⟩] } "S").appliedBehaviors =
      ["_next/static*", "a", "b/*", "_next/image*"] :=
  (c1_order_of_emission
    { nextjsType := NextjsType.serverFunction
      publicDirEntries := [⟨"a", false⟩, ⟨"b", true⟩] } "S"
    (by decide) (by decide) (by decide)).trans (by decide)

/-- C2 is false of the code: with base path `"base"`, the static behavior is
emitted at the unprefixed pattern `_next/static*`, and
`base/_next/static*` is never emitted — `addStaticBehaviors` (line 424)
does not route the fixed static pattern through `getPathPattern`. -/
theorem c2_base_path_counterexample :
    (nextjsDistributionConstruct
        { nextjsType := NextjsType.container
          basePath := some "base" } "S").appliedBehaviors =
      ["_next/static*", "base/_next/image*", "base", "base/*"] ∧
    "base/_next/static*" ∉
      (nextjsDistributionConstruct
        { nextjsType := NextjsType.container
          basePath := some "base" } "S").appliedBehaviors := by
  decide

/-- C2 (amended): when a (non-empty) base path is set and synthesis does not
throw, the image pattern and every public-entry-derived pattern are
prefixed as `{basePath}/{pattern}`, the base path itself receives its own
exact-match route at the dynamic origin, followed by the `{basePath}/*`
wildcard — but the static `_next/static*` pattern is emitted unprefixed. -/
theorem c2_base_path_prefixing (props : NextjsDistributionProps) (stackName : String)
    (bp : String) (hbp : props.basePath = some bp) (hne : bp.isEmpty = false)
    (harn : (isFunctionCompute props.nextjsType &&
      !functionArnTruthy props.functionArn) = false)
    (hlen : props.publicDirEntries.length < 22)
    (hvalid : ∀ e ∈ props.publicDirEntries,
      matchesPathPatternGrammar (publicFilePathPattern e) = true) :
    (nextjsDistributionConstruct props stackName).appliedBehaviors =
      ["_next/static*"] ++
        props.publicDirEntries.map (fun e => bp ++ "/" ++ publicFilePathPattern e) ++
        [bp ++ "/" ++ "_next/image*", bp, bp ++ "/" ++ "*"] := by
  have hstatic : addStaticBehaviors props.basePath props.publicDirEntries =
      (["_next/static*"] ++
        props.publicDirEntries.map
          (fun e => getPathPattern props.basePath (publicFilePathPattern e)),
       none) := by
    unfold addStaticBehaviors
    rw [if_neg (by omega)]
    exact addStaticBehaviorsLoop_success _ _ _ hvalid
  have hget : ∀ p, getPathPattern props.basePath p = bp ++ "/" ++ p := by
    intro p
    rw [hbp]
    simp [getPathPattern, hne]
  have hdyn : addDynamicBehaviors props.basePath =
      [bp ++ "/" ++ "_next/image*", bp, bp ++ "/" ++ "*"] := by
    rw [hbp]
    simp [addDynamicBehaviors, getPathPattern, hne]
  simp [nextjsDistributionConstruct, harn, hstatic, hget, hdyn]

/-- Witness for C2 (amended) at base path `"base"` with one directory
entry. -/
theorem c2_base_path_prefixing_witness :
    (nextjsDistributionConstruct
        { nextjsType := NextjsType.container
          basePath := some "base"
          publicDirEntries := [⟨"assets", true⟩] } "S").appliedBehaviors =
      ["_next/static*", "base/assets/*", "base/_next/image*", "base", "base/*"] :=
  (c2_base_path_prefixing
    { nextjsType := NextjsType.container
      basePath := some "base"
      publicDirEntries := [⟨"assets", true⟩] } "S" "base"
    rfl (by decide) (by decide) (by decide) (by decide)).trans (by decide)

/-- Every pattern emitted by `addDynamicBehaviors` conforms to the grammar,
provided the base path (when truthy) does. -/
theorem addDynamicBehaviors_grammar (basePath : Option String)
    (hbp : ∀ b ∈ basePath, matchesPathPatternGrammar b = true) :
    ∀ p ∈ addDynamicBehaviors basePath, matchesPathPatternGrammar p = true := by
  intro p hp
  cases basePath with
  | none =>
    simp [addDynamicBehaviors, getPathPattern] at hp
    rw [hp]
    decide
  | some b =>
    by_cases hemp : b.isEmpty
    · simp [addDynamicBehaviors, getPathPattern, hemp] at hp
      rw [hp]
      decide
    · have hb : matchesPathPatternGrammar b = true := hbp b rfl
      simp [addDynamicBehaviors, getPathPattern, hemp] at hp
      rcases hp with hp | hp | hp
      · rw [hp]
        exact matchesPathPatternGrammar_append _ _
          (matchesPathPatternGrammar_append _ _ hb (by decide)) (by decide)
      · rw [hp]; exact hb
      · rw [hp]
        exact matchesPathPatternGrammar_append _ _
          (matchesPathPatternGrammar_append _ _ hb (by decide)) (by decide)

/-- C4 is false of the code: the base path is never validated against the
pattern grammar, so with `basePath = "bad base!"` (space and `!` are
disallowed) and no public entries, synthesis succeeds while emitting the
pattern `"bad base!/_next/image*"`, which violates the grammar. -/
theorem c4_pattern_invariant_counterexample :
    (nextjsDistributionConstruct
        { nextjsType := NextjsType.container
          basePath := some "bad base!" } "S").error = none ∧
    "bad base!/_next/image*" ∈
      (nextjsDistributionConstruct
        { nextjsType := NextjsType.container
          basePath := some "bad base!" } "S").appliedBehaviors ∧
    matchesPathPatternGrammar "bad base!/_next/image*" = false := by
  decide

/-- C4 (amended): provided the base path (when set) itself conforms to the
grammar `^[a-zA-Z0-9_\-.*$/~"'@:+?&]+$`, every behavior pattern emitted by
a successful synthesis conforms to it; and whenever a public-entry list of
length < 22 contains an entry whose derived pattern violates the grammar,
`addStaticBehaviors` fails with the invalid-pattern error carrying the
derived pattern of such an entry, whose message names that exact
pattern. -/
theorem c4_pattern_invariant (props : NextjsDistributionProps) (stackName : String)
    (hbp : ∀ b ∈ props.basePath, matchesPathPatternGrammar b = true) :
    ((nextjsDistributionConstruct props stackName).error = none →
      ∀ p ∈ (nextjsDistributionConstruct props stackName).appliedBehaviors,
        matchesPathPatternGrammar p = true) ∧
    (props.publicDirEntries.length < 22 →
      (∃ e ∈ props.publicDirEntries,
        matchesPathPatternGrammar (publicFilePathPattern e) = false) →
      ∃ q, (addStaticBehaviors props.basePath props.publicDirEntries).2 =
          some (NextjsDistributionError.invalidPathPattern q) ∧
        (∃ e ∈ props.publicDirEntries, q = publicFilePathPattern e) ∧
        matchesPathPatternGrammar q = false ∧
        ∃ pre post, errorMessage (NextjsDistributionError.invalidPathPattern q) =
          pre ++ q ++ post) := by
  constructor
  · intro herr
    by_cases harn : (isFunctionCompute props.nextjsType &&
        !functionArnTruthy props.functionArn) = true
    · intro p hp
      exfalso
      simp [nextjsDistributionConstruct, harn] at herr
    · have harn' : (isFunctionCompute props.nextjsType &&
          !functionArnTruthy props.functionArn) = false := by
        simpa using harn
      have herr2 : (addStaticBehaviors props.basePath props.publicDirEntries).2 = none := by
        simpa [nextjsDistributionConstruct, harn'] using herr
      have hlen : props.publicDirEntries.length < 22 := by
        by_contra hge
        have hge' : 22 ≤ props.publicDirEntries.length := Nat.le_of_not_lt hge
        have : (addStaticBehaviors props.basePath props.publicDirEntries).2 =
            some NextjsDistributionError.configurationLimitExceeded := by
          simp [addStaticBehaviors, hge']
        rw [this] at herr2
        cases herr2
      have hvalid : ∀ e ∈ props.publicDirEntries,
          matchesPathPatternGrammar (publicFilePathPattern e) = true := by
        intro e he
        by_contra hbad
        have hbad' : matchesPathPatternGrammar (publicFilePathPattern e) = false := by
          simpa using hbad
        obtain ⟨pre, bad, post, h1, h2, h3, h4⟩ :=
          addStaticBehaviorsLoop_first_invalid props.basePath props.publicDirEntries
            ["_next/static*"] ⟨e, he, hbad'⟩
        have : (addStaticBehaviors props.basePath props.publicDirEntries).2 =
            some (NextjsDistributionError.invalidPathPattern (publicFilePathPattern bad)) := by
          unfold addStaticBehaviors
          rw [if_neg (by omega)]
          exact h4
        rw [this] at herr2
        cases herr2
      have hstatic : addStaticBehaviors props.basePath props.publicDirEntries =
          (["_next/static*"] ++
            props.publicDirEntries.map
              (fun e => getPathPattern props.basePath (publicFilePathPattern e)),
           none) := by
        unfold addStaticBehaviors
        rw [if_neg (by omega)]
        exact addStaticBehaviorsLoop_success _ _ _ hvalid
      intro p hp
      have happ : (nextjsDistributionConstruct props stackName).appliedBehaviors =
          ["_next/static*"] ++
            props.publicDirEntries.map
              (fun e => getPathPattern props.basePath (publicFilePathPattern e)) ++
            addDynamicBehaviors props.basePath := by
        simp [nextjsDistributionConstruct, harn', hstatic]
      rw [happ] at hp
      rcases List.mem_append.mp hp with hp1 | hpd
      · rcases List.mem_append.mp hp1 with hps | hpm
        · have : p = "_next/static*" := by simpa using hps
          rw [this]
          decide
        · obtain ⟨e, he, rfl⟩ := List.mem_map.mp hpm
          exact matchesPathPatternGrammar_getPathPattern _ _ hbp (hvalid e he)
      · exact addDynamicBehaviors_grammar _ hbp p hpd
  · intro hlen hinv
    have hinv' : ∃ e ∈ props.publicDirEntries,
        matchesPathPatternGrammar (publicFilePathPattern e) = false := hinv
    obtain ⟨pre, bad, post, h1, h2, h3, h4⟩ :=
      addStaticBehaviorsLoop_first_invalid props.basePath props.publicDirEntries
        ["_next/static*"] hinv'
    refine ⟨publicFilePathPattern bad, ?_, ⟨bad, ?_, rfl⟩, h3,
      "Invalid CloudFront Distribution Cache Behavior Path Pattern: ",
      ". Please see documentation here: https://docs.aws.amazon.com/AmazonCloudFront/latest/DeveloperGuide/distribution-web-values-specify.html#DownloadDistValuesPathPattern",
      rfl⟩
    · unfold addStaticBehaviors
      rw [if_neg (by omega)]
      exact h4
    · rw [h1]
      exact List.mem_append.mpr (Or.inr (List.mem_cons_self bad post))

/-- Witness for C4 (amended) at a crafted entry name with a disallowed
character and no base path. -/
theorem c4_pattern_invariant_witness :
    ∃ q, (addStaticBehaviors none [⟨"ok", false⟩, ⟨"bad name!", false⟩]).2 =
        some (NextjsDistributionError.invalidPathPattern q) ∧
      (∃ e ∈ [(⟨"ok", false⟩ : PublicDirEntry), ⟨"bad name!", false⟩],
        q = publicFilePathPattern e) ∧
      matchesPathPatternGrammar q = false ∧
      ∃ pre post, errorMessage (NextjsDistributionError.invalidPathPattern q) =
        pre ++ q ++ post :=
  (c4_pattern_invariant
    { nextjsType := NextjsType.container
      publicDirEntries := [⟨"ok", false⟩, ⟨"bad name!", false⟩] } "S"
    (by simp)).2 (by decide) ⟨⟨"bad name!", false⟩, by decide, by decide⟩

/-- C8 is false of the code: with 22 public entries the route-count check
fails, yet the `_next/static*` behavior has already been applied to the
distribution before the check runs, so the failed validation leaves a
partially applied configuration. -/
theorem c8_all_or_nothing_counterexample :
    (nextjsDistributionConstruct
        { nextjsType := NextjsType.container
          publicDirEntries := List.replicate 22 ⟨"a", false⟩ } "S").error =
      some NextjsDistributionError.configurationLimitExceeded ∧
    (nextjsDistributionConstruct
        { nextjsType := NextjsType.container
          publicDirEntries := List.replicate 22 ⟨"a", false⟩ } "S").appliedBehaviors =
      ["_next/static*"] ∧
    (nextjsDistributionConstruct
        { nextjsType := NextjsType.container
          publicDirEntries := List.replicate 22 ⟨"a", false⟩ } "S").appliedBehaviors ≠
      [] := by
  decide

/-- C8 (amended): when the route-count or pattern-grammar check fails,
synthesis stops at the failing check — no further behavior and in
particular no dynamic or image behavior is applied — but it is not
all-or-nothing: the applied behaviors are exactly the already-emitted
`_next/static*` behavior plus the prefixed patterns of the entries
preceding the failure. -/
theorem c8_fail_fast_partial_application (props : NextjsDistributionProps)
    (stackName : String)
    (harn : (isFunctionCompute props.nextjsType &&
      !functionArnTruthy props.functionArn) = false)
    (herr : (nextjsDistributionConstruct props stackName).error ≠ none) :
    ∃ k, (nextjsDistributionConstruct props stackName).appliedBehaviors =
      "_next/static*" ::
        ((props.publicDirEntries.take k).map
          (fun e => getPathPattern props.basePath (publicFilePathPattern e))) := by
  by_cases hlen : 22 ≤ props.publicDirEntries.length
  · have hstatic : addStaticBehaviors props.basePath props.publicDirEntries =
        (["_next/static*"], some NextjsDistributionError.configurationLimitExceeded) := by
      simp [addStaticBehaviors, hlen]
    exact ⟨0, by simp [nextjsDistributionConstruct, harn, hstatic]⟩
  · obtain ⟨k, hk⟩ :=
      addStaticBehaviorsLoop_applied_take props.basePath props.publicDirEntries
        ["_next/static*"]
    refine ⟨k, ?_⟩
    cases h2 : (addStaticBehaviorsLoop props.basePath props.publicDirEntries
        ["_next/static*"]).2 with
    | none =>
      exfalso
      apply herr
      have hpair : addStaticBehaviorsLoop props.basePath props.publicDirEntries
          ["_next/static*"] =
          (["_next/static*"] ++
            (props.publicDirEntries.take k).map
              (fun e => getPathPattern props.basePath (publicFilePathPattern e)),
           none) := by
        have he : addStaticBehaviorsLoop props.basePath props.publicDirEntries
            ["_next/static*"] =
            ((addStaticBehaviorsLoop props.basePath props.publicDirEntries
              ["_next/static*"]).1,
             (addStaticBehaviorsLoop props.basePath props.publicDirEntries
              ["_next/static*"]).2) := rfl
        rw [he, hk, h2]
      simp [nextjsDistributionConstruct, harn, addStaticBehaviors, hlen, hpair]
    | some e =>
      have hpair : addStaticBehaviorsLoop props.basePath props.publicDirEntries
          ["_next/static*"] =
          (["_next/static*"] ++
            (props.publicDirEntries.take k).map
              (fun e => getPathPattern props.basePath (publicFilePathPattern e)),
           some e) := by
        have he : addStaticBehaviorsLoop props.basePath props.publicDirEntries
            ["_next/static*"] =
            ((addStaticBehaviorsLoop props.basePath props.publicDirEntries
              ["_next/static*"]).1,
             (addStaticBehaviorsLoop props.basePath props.publicDirEntries
              ["_next/static*"]).2) := rfl
        rw [he, hk, h2]
      simp [nextjsDistributionConstruct, harn, addStaticBehaviors, hlen, hpair]

/-- Witness for C8 (amended): one valid entry before an invalid one; the
valid entry's behavior and `_next/static*` are applied, then synthesis
stops. -/
theorem c8_fail_fast_partial_application_witness :
    ∃ k, (nextjsDistributionConstruct
        { nextjsType := NextjsType.container
          publicDirEntries := [⟨"good", false⟩, ⟨"bad name!", false⟩] } "S").appliedBehaviors =
      "_next/static*" ::
        (([(⟨"good", false⟩ : PublicDirEntry), ⟨"bad name!", false⟩].take k).map
          (fun e => getPathPattern none (publicFilePathPattern e))) :=
  c8_fail_fast_partial_application
    { nextjsType := NextjsType.container
      publicDirEntries := [⟨"good", false⟩, ⟨"bad name!", false⟩] } "S"
    (by decide) (by decide)

end NextjsDistribution
